import Mathlib

/-!
Shallow embedding of the multi-tenant product-testing backend
(NestJS + Prisma) and verification of its specification claims.

Sources embedded:
- src/src/evaluations/evaluation.service.ts (EvaluationService)
- src/src/invitations/dto/invitation.dto.ts (InvitationService)
- src/src/auth/utils/jwt.util.ts (AuthService, AuthModule)
- src/unnamed/part_002 (MemberWriteBlockGuard)
- src/unnamed/part_004 (ProjectService)
- src/unnamed/part_007 (BaseService)
- src/src/common/interfaces/tenant-context.interface.ts

The database is modelled as explicit lists of rows; every service
operation is a pure function from an input state (and a clock value in
milliseconds) to an output state paired with an `Except` result, so a
thrown framework exception becomes an `error` value and partial side
effects performed before a throw are visible in the returned state.
External collaborators (Supabase identity calls, generated UUIDs,
generated row ids) are passed in as explicit oracle parameters.
-/

deriving instance DecidableEq for Except

namespace Testerone

/-- Role enum from the Prisma schema, as used throughout the source
(FOUNDER = owner/creator, TESTER, MEMBER = restricted member). -/
inductive Role where
  | FOUNDER
  | TESTER
  | MEMBER
deriving DecidableEq, Repr

/-- EvaluationStatus enum (evaluation.service.ts, dto/evaluation.dto.ts). -/
inductive EvaluationStatus where
  | DRAFT
  | ACTIVE
  | COMPLETED
deriving DecidableEq, Repr

/-- Participation status values used in evaluation.service.ts
(PENDING, ACCEPTED, REJECTED). -/
inductive ParticipationStatus where
  | PENDING
  | ACCEPTED
  | REJECTED
deriving DecidableEq, Repr

/-- InvitationStatus enum used in invitation.dto.ts. -/
inductive InvitationStatus where
  | PENDING
  | ACCEPTED
  | EXPIRED
  | REVOKED
deriving DecidableEq, Repr

/-- Error taxonomy: the NestJS exception classes thrown by the services,
plus `generic` for plain `throw new Error(...)` as used by
ProjectService.findOne and ProjectService.addMember (src/unnamed/part_004). -/
inductive ServiceError where
  | notFound (msg : String)
  | forbidden (msg : String)
  | badRequest (msg : String)
  | conflict (msg : String)
  | unauthorized (msg : String)
  | generic (msg : String)
deriving DecidableEq, Repr

/-- True exactly for the ConflictException constructor. -/
def ServiceError.isConflict : ServiceError → Bool
  | .conflict _ => true
  | _ => false

/-- True exactly for the NotFoundException constructor. -/
def ServiceError.isNotFound : ServiceError → Bool
  | .notFound _ => true
  | _ => false

/-- TenantContext (src/src/common/interfaces/tenant-context.interface.ts). -/
structure TenantContext where
  userId : String
  supabaseId : String
  email : String
  role : Role
  tenantId : String
deriving DecidableEq, Repr

/-- Account (tenant) row. -/
structure Account where
  id : String
  name : String
deriving DecidableEq, Repr

/-- User row (fields read by the embedded services). -/
structure User where
  id : String
  supabaseId : String
  email : String
  role : Role
  accountId : String
deriving DecidableEq, Repr

/-- Project row (fields read by ProjectService). -/
structure Project where
  id : String
  accountId : String
  ownerId : String
  createdAt : Nat
  deletedAt : Option Nat
deriving DecidableEq, Repr

/-- ProjectMember join row (projectId, userId). -/
structure ProjectMember where
  projectId : String
  userId : String
deriving DecidableEq, Repr

/-- Evaluation row (fields read by EvaluationService). -/
structure Evaluation where
  id : String
  projectId : String
  accountId : String
  createdById : String
  status : EvaluationStatus
deriving DecidableEq, Repr

/-- EvaluationQuestion row (fields read by submitFeedback). -/
structure EvaluationQuestion where
  id : String
  evaluationId : String
  text : String
deriving DecidableEq, Repr

/-- EvaluationParticipant row: composite key (evaluationId, userId). -/
structure EvaluationParticipant where
  evaluationId : String
  userId : String
  status : ParticipationStatus
  joinedAt : Nat
  completedAt : Option Nat
  rejectedAt : Option Nat
deriving DecidableEq, Repr

/-- Answer payload of an EvaluationResponse (boolean, text or rating). -/
inductive AnswerValue where
  | bool (b : Bool)
  | text (s : String)
  | rating (n : Nat)
deriving DecidableEq, Repr

/-- EvaluationResponse row (fields written by submitFeedback). -/
structure EvaluationResponse where
  questionId : String
  userId : String
  answer : AnswerValue
deriving DecidableEq, Repr

/-- Invitation row (fields used by InvitationService). -/
structure Invitation where
  id : String
  email : String
  token : String
  role : Role
  accountId : String
  invitedById : String
  status : InvitationStatus
  expiresAt : Nat
  acceptedAt : Option Nat
deriving DecidableEq, Repr

/-- The relational store: one list of rows per table. -/
structure DB where
  accounts : List Account
  users : List User
  projects : List Project
  members : List ProjectMember
  evaluations : List Evaluation
  questions : List EvaluationQuestion
  participants : List EvaluationParticipant
  responses : List EvaluationResponse
  invitations : List Invitation
deriving DecidableEq, Repr

/-- The empty store. -/
def DB.empty : DB :=
  { accounts := [], users := [], projects := [], members := [],
    evaluations := [], questions := [], participants := [],
    responses := [], invitations := [] }

/-- Prisma findUnique on the composite key evaluationId_userId of
evaluationParticipant (the key is unique in the schema; the model keeps
the first match). -/
def findParticipantUnique (db : DB) (evaluationId userId : String) :
    Option EvaluationParticipant :=
  db.participants.find? fun p =>
    decide (p.evaluationId = evaluationId ∧ p.userId = userId)

/-- Modelled from the spec: the Prisma schema (not under src/) supplies
the column defaults of a freshly created EvaluationParticipant row; per
the spec, Join creates a Pending participation row with a joinedAt
timestamp and no completion or rejection timestamps. -/
def newParticipant (evaluationId userId : String) (now : Nat) :
    EvaluationParticipant :=
  { evaluationId := evaluationId, userId := userId,
    status := ParticipationStatus.PENDING, joinedAt := now,
    completedAt := none, rejectedAt := none }

/-- EvaluationService.joinEvaluation (evaluation.service.ts lines 182-218).
TESTER only; looks the evaluation up by id and ACTIVE status (note: the
where clause carries no accountId filter); rejects a duplicate
participation with BadRequestException; otherwise inserts a participation
row for (evaluationId, userId). -/
def joinEvaluation (ctx : TenantContext) (evaluationId : String) (db : DB)
    (now : Nat) : DB × Except ServiceError Unit :=
  if ctx.role ≠ Role.TESTER then
    (db, .error (.forbidden "Only TESTERs can join evaluations"))
  else
    match db.evaluations.find? (fun e =>
        decide (e.id = evaluationId ∧ e.status = EvaluationStatus.ACTIVE)) with
    | none => (db, .error (.notFound "Active evaluation not found"))
    | some _ =>
      match findParticipantUnique db evaluationId ctx.userId with
      | some _ => (db, .error (.badRequest "Already joined this evaluation"))
      | none =>
        ({ db with participants :=
            db.participants ++ [newParticipant evaluationId ctx.userId now] },
         .ok ())

/-- Submitted answer for one question (SubmitResponseDto,
dto/evaluation.dto.ts). -/
structure SubmitResponseDto where
  questionId : String
  answer : AnswerValue
deriving DecidableEq, Repr

/-- SubmitFeedbackDto (dto/evaluation.dto.ts). -/
structure SubmitFeedbackDto where
  responses : List SubmitResponseDto
deriving DecidableEq, Repr

/-- Question ids of an evaluation: `evaluation.questions.map((q) => q.id)`
with the questions relation included on the looked-up evaluation
(evaluation.service.ts lines 256-267). -/
def evaluationQuestionIds (db : DB) (evaluationId : String) : List String :=
  (db.questions.filter (fun q => decide (q.evaluationId = evaluationId))).map
    (fun q => q.id)

/-- EvaluationService.submitFeedback (evaluation.service.ts lines 224-301).
TESTER only; requires an existing, not yet completed participation; looks
the evaluation up by id and ACTIVE status (again with no accountId
filter); throws BadRequestException at the first submitted questionId
outside the question set of the evaluation; otherwise, in one Prisma
transaction, bulk-inserts all response rows and marks the participation
completed with the current timestamp and status ACCEPTED. The update on
the unique composite key is modelled as a map over the participant rows. -/
def submitFeedback (ctx : TenantContext) (evaluationId : String)
    (data : SubmitFeedbackDto) (db : DB) (now : Nat) :
    DB × Except ServiceError Unit :=
  if ctx.role ≠ Role.TESTER then
    (db, .error (.forbidden "Only TESTERs can submit feedback"))
  else
    match findParticipantUnique db evaluationId ctx.userId with
    | none => (db, .error (.forbidden "You must join this evaluation first"))
    | some participation =>
      if participation.completedAt.isSome then
        (db, .error (.badRequest
          "You have already submitted feedback for this evaluation"))
      else
        match db.evaluations.find? (fun e =>
            decide (e.id = evaluationId ∧
              e.status = EvaluationStatus.ACTIVE)) with
        | none => (db, .error (.notFound "Active evaluation not found"))
        | some _ =>
          let questionIds := evaluationQuestionIds db evaluationId
          match data.responses.find?
              (fun r => decide (r.questionId ∉ questionIds)) with
          | some offending =>
            (db, .error (.badRequest ("Question " ++ offending.questionId ++
              " does not belong to this evaluation")))
          | none =>
            ({ db with
               responses := db.responses ++ data.responses.map (fun r =>
                 { questionId := r.questionId, userId := ctx.userId,
                   answer := r.answer }),
               participants := db.participants.map (fun p =>
                 if p.evaluationId = evaluationId ∧ p.userId = ctx.userId then
                   { p with
                     completedAt := some now,
                     status := ParticipationStatus.ACCEPTED }
                 else p) },
             .ok ())

/-- Principal attached to an authenticated request (request.user). -/
structure RequestUser where
  role : Role
deriving DecidableEq, Repr

/-- HTTP verbs blocked for MEMBER (src/unnamed/part_002 line 29). -/
def writeMethods : List String := ["POST", "PUT", "PATCH", "DELETE"]

/-- MemberWriteBlockGuard.canActivate (src/unnamed/part_002 lines 18-37).
The guard is registered as a global APP_GUARD in AuthModule
(src/src/auth/utils/jwt.util.ts lines 223-239), so it runs against every
route before the handler; it inspects only request.user.role and the HTTP
method, never the route or any entity permission table. An unauthenticated
request (user undefined) passes because optional chaining yields a role
that differs from MEMBER. -/
def memberWriteBlockCanActivate (user : Option RequestUser)
    (method : String) : Except ServiceError Bool :=
  match user with
  | none => .ok true
  | some u =>
    if u.role ≠ Role.MEMBER then .ok true
    else if method ∈ writeMethods then
      .error (.forbidden
        "MEMBER role is not authorized to perform write operations")
    else .ok true

/-- Lower-case rendering of an invitation status, as produced by
`invitation.status.toLowerCase()` in invitation.dto.ts. -/
def statusLower : InvitationStatus → String
  | .PENDING => "pending"
  | .ACCEPTED => "accepted"
  | .EXPIRED => "expired"
  | .REVOKED => "revoked"

/-- Prisma update setting one invitation row (looked up by id) to
EXPIRED, as performed inside validateToken, acceptInvitation and
sendInvite. -/
def markInvitationExpired (db : DB) (invId : String) : DB :=
  { db with invitations := db.invitations.map (fun i =>
      if i.id = invId then { i with status := InvitationStatus.EXPIRED }
      else i) }

/-- Payload returned by a successful validateToken call: the joined
account name and inviter email are looked up from the store (the Prisma
relations are total, so the lookups are modelled as options). -/
structure ValidateTokenResult where
  valid : Bool
  email : String
  role : Role
  organization : Option String
  invitedBy : Option String
  expiresAt : Nat
deriving DecidableEq, Repr

/-- InvitationService.validateToken (invitation.dto.ts lines 150-188).
Looks the invitation up by token; NotFound when absent; BadRequest naming
the terminal status when not PENDING; when PENDING but past expiry, first
updates the row to EXPIRED and then throws BadRequest "Invitation has
expired"; otherwise returns the invitation metadata. -/
def validateToken (token : String) (db : DB) (now : Nat) :
    DB × Except ServiceError ValidateTokenResult :=
  match db.invitations.find? (fun i => decide (i.token = token)) with
  | none => (db, .error (.notFound "Invalid invitation token"))
  | some invitation =>
    if invitation.status ≠ InvitationStatus.PENDING then
      (db, .error (.badRequest
        ("Invitation has already been " ++ statusLower invitation.status)))
    else if invitation.expiresAt < now then
      (markInvitationExpired db invitation.id,
       .error (.badRequest "Invitation has expired"))
    else
      (db, .ok {
        valid := true,
        email := invitation.email,
        role := invitation.role,
        organization := (db.accounts.find? (fun a =>
          decide (a.id = invitation.accountId))).map Account.name,
        invitedBy := (db.users.find? (fun u =>
          decide (u.id = invitation.invitedById))).map User.email,
        expiresAt := invitation.expiresAt })

/-- AcceptInviteDto (invitation.dto.ts lines 25-33). -/
structure AcceptInviteDto where
  token : String
  password : String
deriving DecidableEq, Repr

/-- InvitationService.acceptInvitation (invitation.dto.ts lines 193-271).
Re-validates the token (same branches as validateToken, including the
passive transition to EXPIRED); Conflict when a user with the invited
email already exists; then calls Supabase signUp (outcome supplied by the
`supaResult` oracle: the new Supabase user id, or the failure it throws)
and, in one Prisma transaction, creates the local user with role and
accountId taken from the invitation and marks the invitation ACCEPTED
with a timestamp. -/
def acceptInvitation (data : AcceptInviteDto) (db : DB) (now : Nat)
    (supaResult : Except ServiceError String) (newUserId : String) :
    DB × Except ServiceError User :=
  match db.invitations.find? (fun i => decide (i.token = data.token)) with
  | none => (db, .error (.notFound "Invalid invitation token"))
  | some invitation =>
    if invitation.status ≠ InvitationStatus.PENDING then
      (db, .error (.badRequest
        ("Invitation has already been " ++ statusLower invitation.status)))
    else if invitation.expiresAt < now then
      (markInvitationExpired db invitation.id,
       .error (.badRequest "Invitation has expired"))
    else
      match db.users.find? (fun u => decide (u.email = invitation.email)) with
      | some _ => (db, .error (.conflict "User with this email already exists"))
      | none =>
        match supaResult with
        | .error e => (db, .error e)
        | .ok supabaseId =>
          let newUser : User :=
            { id := newUserId, supabaseId := supabaseId,
              email := invitation.email, role := invitation.role,
              accountId := invitation.accountId }
          ({ db with
             users := db.users ++ [newUser],
             invitations := db.invitations.map (fun i =>
               if i.id = invitation.id then
                 { i with
                   status := InvitationStatus.ACCEPTED,
                   acceptedAt := some now }
               else i) },
           .ok newUser)

/-- SendInviteDto (invitation.dto.ts lines 9-17): email plus an optional
role restricted to TESTER or MEMBER. -/
structure SendInviteDto where
  email : String
  role : Option Role
deriving DecidableEq, Repr

/-- InvitationService.expirationMinutes (invitation.dto.ts line 52). -/
def expirationMinutes : Nat := 60

/-- Modelled from the spec: the Invitation status column default (the
Prisma schema is not under src/; the spec state machine starts every
invitation at Pending). -/
def newInvitationStatus : InvitationStatus := InvitationStatus.PENDING

/-- InvitationService.sendInvite (invitation.dto.ts lines 65-145).
FOUNDER only; Conflict when a user with the email exists in the tenant;
when a PENDING invitation for (email, tenant) exists: Conflict if its
expiry is still in the future, otherwise it is first updated to EXPIRED;
then persists a new invitation carrying the freshly generated token
(randomUUID, supplied by the `newToken` oracle) and an expiry 60 minutes
out. -/
def sendInvite (ctx : TenantContext) (data : SendInviteDto) (db : DB)
    (now : Nat) (newToken newInvitationId : String) :
    DB × Except ServiceError Invitation :=
  if ctx.role ≠ Role.FOUNDER then
    (db, .error (.forbidden "Only FOUNDERs can manage invitations"))
  else
    match db.users.find? (fun u =>
        decide (u.email = data.email ∧ u.accountId = ctx.tenantId)) with
    | some _ =>
      (db, .error (.conflict
        "User with this email already exists in your organization"))
    | none =>
      let afterPendingCheck : Except ServiceError DB :=
        match db.invitations.find? (fun i =>
            decide (i.email = data.email ∧ i.accountId = ctx.tenantId ∧
              i.status = InvitationStatus.PENDING)) with
        | some existingInvite =>
          if now < existingInvite.expiresAt then
            .error (.conflict
              "An active invitation already exists for this email. Please wait for it to expire or revoke it.")
          else
            .ok (markInvitationExpired db existingInvite.id)
        | none => .ok db
      match afterPendingCheck with
      | .error e => (db, .error e)
      | .ok db1 =>
        let invitation : Invitation :=
          { id := newInvitationId, email := data.email, token := newToken,
            role := if data.role = some Role.TESTER then Role.TESTER
                    else Role.MEMBER,
            accountId := ctx.tenantId, invitedById := ctx.userId,
            status := newInvitationStatus,
            expiresAt := now + expirationMinutes * 60 * 1000,
            acceptedAt := none }
        ({ db1 with invitations := db1.invitations ++ [invitation] },
         .ok invitation)

/-- PermissionConfig (tenant-context.interface.ts lines 48-54): optional
per-action lists of allowed roles. -/
structure PermissionConfig where
  findAll : Option (List Role) := none
  findOne : Option (List Role) := none
  create : Option (List Role) := none
  update : Option (List Role) := none
  delete : Option (List Role) := none
deriving DecidableEq, Repr

/-- DEFAULT_PERMISSIONS (tenant-context.interface.ts lines 59-65). -/
def DEFAULT_PERMISSIONS : PermissionConfig :=
  { findAll := some [Role.FOUNDER, Role.TESTER],
    findOne := some [Role.FOUNDER, Role.TESTER],
    create := some [Role.FOUNDER, Role.TESTER],
    update := some [Role.FOUNDER, Role.TESTER],
    delete := some [Role.FOUNDER, Role.TESTER] }

/-- Printable role name for error messages. -/
def roleName : Role → String
  | .FOUNDER => "FOUNDER"
  | .TESTER => "TESTER"
  | .MEMBER => "MEMBER"

/-- BaseService.checkPermission (src/unnamed/part_007 lines 59-70):
Forbidden when the action has no configured role list or the role is not
in it. -/
def checkPermission (allowedRoles : Option (List Role)) (ctx : TenantContext)
    (action modelName : String) : Except ServiceError Unit :=
  match allowedRoles with
  | none =>
    .error (.forbidden ("Role " ++ roleName ctx.role ++
      " is not authorized to " ++ action ++ " " ++ modelName))
  | some roles =>
    if ctx.role ∈ roles then .ok ()
    else
      .error (.forbidden ("Role " ++ roleName ctx.role ++
        " is not authorized to " ++ action ++ " " ++ modelName))

/-- BaseService.findOne (src/unnamed/part_007 lines 117-134), generic in
the row type: permission check for the findOne action, then findFirst on
id plus the tenant predicate of BaseService.buildTenantWhere (lines
75-77); NotFoundException when no row matches. -/
def baseFindOne {α : Type} (idOf accountIdOf : α → String)
    (permissions : PermissionConfig) (modelName : String)
    (records : List α) (ctx : TenantContext) (id : String) :
    Except ServiceError α :=
  match checkPermission permissions.findOne ctx "findOne" modelName with
  | .error e => .error e
  | .ok _ =>
    match records.find? (fun r =>
        decide (idOf r = id ∧ accountIdOf r = ctx.tenantId)) with
    | none =>
      .error (.notFound (modelName ++ " with ID " ++ id ++ " not found"))
    | some r => .ok r

/-- Effective permissions of ProjectService (src/unnamed/part_004 lines
37-45); the constructor spreads them over DEFAULT_PERMISSIONS, and since
all five actions are supplied the result is exactly this configuration. -/
def projectPermissions : PermissionConfig :=
  { create := some [Role.FOUNDER],
    update := some [Role.FOUNDER],
    delete := some [Role.FOUNDER],
    findAll := some [Role.FOUNDER, Role.TESTER, Role.MEMBER],
    findOne := some [Role.FOUNDER, Role.TESTER, Role.MEMBER] }

/-- ProjectService.buildRoleScopedWhere (src/unnamed/part_004 lines
53-72) as a row predicate: tenant match and not soft-deleted, and for the
MEMBER role additionally a membership row for the caller. -/
def matchesRoleScopedWhere (ctx : TenantContext) (db : DB) (p : Project) :
    Bool :=
  decide (p.accountId = ctx.tenantId) && decide (p.deletedAt = none) &&
    (if ctx.role = Role.MEMBER then
      db.members.any (fun m =>
        decide (m.projectId = p.id ∧ m.userId = ctx.userId))
    else true)

/-- PaginationOptions (tenant-context.interface.ts lines 23-30) with the
defaults applied at the call sites (skip 0, take 20). -/
structure PaginationOptions where
  skip : Nat := 0
  take : Nat := 20
deriving DecidableEq, Repr

/-- Pagination metadata of a PaginatedResponse. -/
structure PaginatedMeta where
  total : Nat
  skip : Nat
  take : Nat
  hasMore : Bool
deriving DecidableEq, Repr

/-- PaginatedResponse of projects. -/
structure PaginatedProjects where
  data : List Project
  meta : PaginatedMeta
deriving DecidableEq, Repr

/-- Prisma orderBy createdAt desc, modelled as a stable insertion sort on
descending creation time. -/
def sortByCreatedAtDesc (l : List Project) : List Project :=
  l.insertionSort (fun a b => b.createdAt ≤ a.createdAt)

/-- ProjectService.findAll (src/unnamed/part_004 lines 77-110):
permission check, role-scoped filter, orderBy createdAt desc, skip/take
pagination, and meta with total count and hasMore. The include of the
owner relation only joins extra columns onto each row and is not
modelled. -/
def projectFindAll (ctx : TenantContext) (options : PaginationOptions)
    (db : DB) : Except ServiceError PaginatedProjects :=
  match checkPermission projectPermissions.findAll ctx "findAll" "project" with
  | .error e => .error e
  | .ok _ =>
    let matching := db.projects.filter (matchesRoleScopedWhere ctx db)
    let total := matching.length
    .ok {
      data := ((sortByCreatedAtDesc matching).drop options.skip).take
        options.take,
      meta := {
        total := total,
        skip := options.skip,
        take := options.take,
        hasMore := decide (options.skip + options.take < total) } }

/-- ProjectService.findOne (src/unnamed/part_004 lines 115-144):
permission check, findFirst on id plus the role-scoped where clause, and
a plain `throw new Error(...)` (not a NotFoundException) when no row
matches. The include of owner and members only joins extra columns. -/
def projectFindOne (ctx : TenantContext) (id : String) (db : DB) :
    Except ServiceError Project :=
  match checkPermission projectPermissions.findOne ctx "findOne" "project" with
  | .error e => .error e
  | .ok _ =>
    match db.projects.find? (fun p =>
        decide (p.id = id) && matchesRoleScopedWhere ctx db p) with
    | none =>
      .error (.generic ("Project with ID " ++ id ++
        " not found or access denied"))
    | some p => .ok p

/-- ProjectService.addMember (src/unnamed/part_004 lines 164-193):
plain Error unless the caller is FOUNDER; plain Error unless a project
with the id exists in the tenant; then unconditionally inserts the
(projectId, userId) membership row — no lookup of the user at all. -/
def addMember (ctx : TenantContext) (projectId userId : String) (db : DB) :
    DB × Except ServiceError Unit :=
  if ctx.role ≠ Role.FOUNDER then
    (db, .error (.generic "Only FOUNDERs can add project members"))
  else
    match db.projects.find? (fun p =>
        decide (p.id = projectId ∧ p.accountId = ctx.tenantId)) with
    | none => (db, .error (.generic "Project not found"))
    | some _ =>
      ({ db with members := db.members ++
          [{ projectId := projectId, userId := userId }] },
       .ok ())

/-- SignupDto (src/unnamed/part_004 lines 4-19). -/
structure SignupDto where
  email : String
  password : String
  role : Role
  accountName : Option String
deriving DecidableEq, Repr

/-- Account name chosen during signup: the supplied accountName, or the
fallback derived from the email (jwt.util.ts line 82). -/
def signupAccountName (dto : SignupDto) : String :=
  match dto.accountName with
  | some n => n
  | none => dto.email ++ "\x27s Account"

/-- AuthService.signup (src/src/auth/utils/jwt.util.ts lines 62-125).
BadRequest when a FOUNDER supplies no account name; Conflict when a user
with the email exists; otherwise creates the Account row first, then
calls Supabase signUp and creates the local user row inside a try block.
The outcomes of the two fallible steps are supplied by oracles
(`supaResult`: new Supabase user id or thrown failure; `userCreateResult`:
new local row id or thrown failure). On a failure of either step the
catch block awaits a delete of the Account and rethrows the original
error; if that delete itself throws (oracle `accountDeleteFailure`), the
account stays and the delete error propagates instead. -/
def signup (dto : SignupDto) (db : DB) (newAccountId : String)
    (supaResult : Except ServiceError String)
    (userCreateResult : Except ServiceError String)
    (accountDeleteFailure : Option ServiceError) :
    DB × Except ServiceError User :=
  if dto.role = Role.FOUNDER ∧ dto.accountName = none then
    (db, .error (.badRequest "Account name is required for founders"))
  else
    match db.users.find? (fun u => decide (u.email = dto.email)) with
    | some _ => (db, .error (.conflict "User with this email already exists"))
    | none =>
      let db1 := { db with accounts := db.accounts ++
        [{ id := newAccountId, name := signupAccountName dto }] }
      let attempt : Except ServiceError User :=
        match supaResult with
        | .error e => .error e
        | .ok supabaseId =>
          match userCreateResult with
          | .error e => .error e
          | .ok newUserId =>
            .ok {
              id := newUserId,
              supabaseId := supabaseId,
              email := dto.email,
              role := dto.role,
              accountId := newAccountId }
      match attempt with
      | .ok user => ({ db1 with users := db1.users ++ [user] }, .ok user)
      | .error e =>
        match accountDeleteFailure with
        | some cleanupError => (db1, .error cleanupError)
        | none =>
          ({ db1 with accounts := db1.accounts.filter (fun a =>
              decide (a.id ≠ newAccountId)) },
           .error e)

/-! Theorems settling the specification claims. -/

/-- C3: a request authenticated with role MEMBER and a write HTTP verb
(POST, PUT, PATCH, DELETE) is rejected by MemberWriteBlockGuard with a
Forbidden error, and no other combination of principal and verb is
blocked by this guard. The guard is installed as a global APP_GUARD
(jwt.util.ts lines 223-239) and reads only the role and the verb, so the
behaviour is identical on every route and independent of any entity-level
permission table. -/
theorem memberWriteBlock_blocks_exactly_member_writes
    (user : Option RequestUser) (method : String) :
    (memberWriteBlockCanActivate user method =
        .error (.forbidden
          "MEMBER role is not authorized to perform write operations") ↔
      user = some { role := Role.MEMBER } ∧ method ∈ writeMethods) ∧
    (¬(user = some { role := Role.MEMBER } ∧ method ∈ writeMethods) →
      memberWriteBlockCanActivate user method = .ok true) := by
  rcases user with _ | ⟨r⟩
  · simp [memberWriteBlockCanActivate]
  · cases r
    all_goals by_cases hmeth : method ∈ writeMethods <;>
      simp [memberWriteBlockCanActivate, hmeth]

/-- Fixture for the tenant-isolation bug: one ACTIVE evaluation with one
question, both belonging to tenant B, and no other rows. -/
def crossTenantDb : DB :=
  { DB.empty with
    evaluations := [{
      id := "e1",
      projectId := "p1",
      accountId := "tenantB",
      createdById := "ownerB",
      status := EvaluationStatus.ACTIVE }],
    questions := [{ id := "q1", evaluationId := "e1", text := "Liked it?" }] }

/-- A TESTER principal of tenant A, a different tenant from the fixture
evaluation. -/
def ctxTesterA : TenantContext :=
  { userId := "u1", supabaseId := "s1", email := "tester@a.example",
    role := Role.TESTER, tenantId := "tenantA" }

/-- C1: refuted by the code. joinEvaluation and submitFeedback look the
evaluation up by id and ACTIVE status only, with no accountId predicate
(evaluation.service.ts lines 187-192 and 252-260), so a TESTER of tenant
A successfully joins an ACTIVE evaluation of tenant B — a participation
row is created for the foreign evaluation — and then successfully submits
feedback, inserting response rows for the foreign question. -/
theorem joinEvaluation_cross_tenant_not_isolated :
    (joinEvaluation ctxTesterA "e1" crossTenantDb 100).2 = .ok () ∧
    (joinEvaluation ctxTesterA "e1" crossTenantDb 100).1.participants =
      [newParticipant "e1" "u1" 100] ∧
    (submitFeedback ctxTesterA "e1"
        { responses := [{ questionId := "q1", answer := .bool true }] }
        (joinEvaluation ctxTesterA "e1" crossTenantDb 100).1 200).2 =
      .ok () ∧
    (submitFeedback ctxTesterA "e1"
        { responses := [{ questionId := "q1", answer := .bool true }] }
        (joinEvaluation ctxTesterA "e1" crossTenantDb 100).1 200).1.responses =
      [{ questionId := "q1", userId := "u1", answer := .bool true }] := by
  refine ⟨by decide, by decide, by decide, by decide⟩

/-- Fixture for the duplicate-join check: an ACTIVE evaluation of tenant
T and an existing participation row for (e1, u1). -/
def dbAlreadyJoined : DB :=
  { DB.empty with
    evaluations := [{
      id := "e1",
      projectId := "p1",
      accountId := "tenantT",
      createdById := "owner1",
      status := EvaluationStatus.ACTIVE }],
    participants := [newParticipant "e1" "u1" 50] }

/-- A TESTER principal of tenant T with user id u1. -/
def ctxTesterT : TenantContext :=
  { userId := "u1", supabaseId := "s1", email := "tester@t.example",
    role := Role.TESTER, tenantId := "tenantT" }

/-- C4, counterexample to the claimed error kind: a second
joinEvaluation on the same (evaluation, user) pair throws
BadRequestException("Already joined this evaluation")
(evaluation.service.ts lines 208-210), which is not a Conflict error. -/
theorem joinEvaluation_duplicate_is_badRequest_not_conflict :
    (joinEvaluation ctxTesterT "e1" dbAlreadyJoined 100).2 =
      .error (.badRequest "Already joined this evaluation") ∧
    ServiceError.isConflict
      (.badRequest "Already joined this evaluation") = false := by
  exact ⟨by decide, rfl⟩

/-- C4 as amended: for a TESTER, joining a non-Active (or absent)
evaluation fails with NotFound; the first join of an Active evaluation
creates a Pending participation row; a repeated join of the same
(evaluation, user) pair fails with a BadRequest "Already joined" error —
not a Conflict — and creates no new row. -/
theorem joinEvaluation_behaviour (ctx : TenantContext)
    (evaluationId : String) (db : DB) (now : Nat)
    (hrole : ctx.role = Role.TESTER) :
    (db.evaluations.find? (fun e =>
        decide (e.id = evaluationId ∧ e.status = EvaluationStatus.ACTIVE)) =
        none →
      joinEvaluation ctx evaluationId db now =
        (db, .error (.notFound "Active evaluation not found"))) ∧
    (∀ e, db.evaluations.find? (fun e =>
        decide (e.id = evaluationId ∧ e.status = EvaluationStatus.ACTIVE)) =
        some e →
      (findParticipantUnique db evaluationId ctx.userId = none →
        joinEvaluation ctx evaluationId db now =
          ({ db with participants := db.participants ++
              [newParticipant evaluationId ctx.userId now] },
           .ok ())) ∧
      (∀ p, findParticipantUnique db evaluationId ctx.userId = some p →
        joinEvaluation ctx evaluationId db now =
          (db, .error (.badRequest "Already joined this evaluation")))) := by
  unfold joinEvaluation
  rw [hrole]
  simp only [ne_eq, not_true_eq_false, if_false, reduceIte]
  constructor
  · intro hnone
    rw [hnone]
  · intro e he
    rw [he]
    constructor
    · intro hnop
      rw [hnop]
    · intro p hp
      rw [hp]

/-- Witness for joinEvaluation_behaviour: evaluated on the concrete
fixture, the first join of u2 creates the Pending row and the duplicate
join of u1 fails with the BadRequest error. -/
theorem joinEvaluation_behaviour_witness :
    ctxTesterT.role = Role.TESTER ∧
    (joinEvaluation ctxTesterT "e1" dbAlreadyJoined 100 =
      (dbAlreadyJoined, .error (.badRequest "Already joined this evaluation"))) := by
  refine ⟨rfl, ?_⟩
  have h := joinEvaluation_behaviour ctxTesterT "e1" dbAlreadyJoined 100 rfl
  exact (h.2 {
    id := "e1",
    projectId := "p1",
    accountId := "tenantT",
    createdById := "owner1",
    status := EvaluationStatus.ACTIVE } (by decide)).2
    (newParticipant "e1" "u1" 50) (by decide)

/-- Updating the participant row matched by the composite-key lookup
keeps it the first match of that lookup, now carrying the completion
timestamp and ACCEPTED status. -/
lemma find?_participants_update (l : List EvaluationParticipant)
    (eid uid : String) (now : Nat) (x : EvaluationParticipant)
    (h : l.find? (fun p => decide (p.evaluationId = eid ∧ p.userId = uid)) =
      some x) :
    (l.map (fun p =>
      if p.evaluationId = eid ∧ p.userId = uid then
        { p with
          completedAt := some now,
          status := ParticipationStatus.ACCEPTED }
      else p)).find?
        (fun p => decide (p.evaluationId = eid ∧ p.userId = uid)) =
      some { x with
        completedAt := some now,
        status := ParticipationStatus.ACCEPTED } := by
  induction l with
  | nil => simp at h
  | cons a tl ih =>
    by_cases hp : a.evaluationId = eid ∧ a.userId = uid
    · rw [List.find?_cons_of_pos _ (by simpa using hp)] at h
      obtain rfl : a = x := by simpa using h
      rw [List.map_cons, if_pos hp]
      exact List.find?_cons_of_pos _ (by simpa using hp)
    · rw [List.find?_cons_of_neg _ (by simpa using hp)] at h
      rw [List.map_cons, if_neg hp]
      rw [List.find?_cons_of_neg _ (by simpa using hp)]
      exact ih h

/-- Fixture for the submit flow: the already-joined fixture plus the one
question q1 of evaluation e1. -/
def dbJoinedWithQuestion : DB :=
  { dbAlreadyJoined with
    questions := [{ id := "q1", evaluationId := "e1", text := "Liked it?" }] }

/-- C2: with the preconditions of the submit flow in place (TESTER
caller, an existing not-yet-completed participation, the evaluation found
ACTIVE), a submission containing any question id outside the question set
of the evaluation fails with BadRequest naming an offending id and leaves
the store untouched (no response rows, participation unchanged), while a
submission whose question ids all belong commits in one unit: all answer
rows are appended and the participation row is marked completed with the
current timestamp and status ACCEPTED. -/
theorem submitFeedback_validates_and_commits_atomically
    (ctx : TenantContext) (evaluationId : String) (data : SubmitFeedbackDto)
    (db : DB) (now : Nat) (participation : EvaluationParticipant)
    (evaluation : Evaluation)
    (hrole : ctx.role = Role.TESTER)
    (hpart : findParticipantUnique db evaluationId ctx.userId =
      some participation)
    (hnotdone : participation.completedAt = none)
    (heval : db.evaluations.find? (fun e =>
        decide (e.id = evaluationId ∧ e.status = EvaluationStatus.ACTIVE)) =
      some evaluation) :
    ((∃ r ∈ data.responses,
        r.questionId ∉ evaluationQuestionIds db evaluationId) →
      (submitFeedback ctx evaluationId data db now).1 = db ∧
      ∃ off ∈ data.responses,
        off.questionId ∉ evaluationQuestionIds db evaluationId ∧
        (submitFeedback ctx evaluationId data db now).2 =
          .error (.badRequest ("Question " ++ off.questionId ++
            " does not belong to this evaluation"))) ∧
    ((∀ r ∈ data.responses,
        r.questionId ∈ evaluationQuestionIds db evaluationId) →
      submitFeedback ctx evaluationId data db now =
        ({ db with
           responses := db.responses ++ data.responses.map (fun r =>
             { questionId := r.questionId, userId := ctx.userId,
               answer := r.answer }),
           participants := db.participants.map (fun p =>
             if p.evaluationId = evaluationId ∧ p.userId = ctx.userId then
               { p with
                 completedAt := some now,
                 status := ParticipationStatus.ACCEPTED }
             else p) },
         .ok ()) ∧
      findParticipantUnique (submitFeedback ctx evaluationId data db now).1
          evaluationId ctx.userId =
        some { participation with
          completedAt := some now,
          status := ParticipationStatus.ACCEPTED }) := by
  have hbody : submitFeedback ctx evaluationId data db now =
      (match data.responses.find?
          (fun r => decide
            (r.questionId ∉ evaluationQuestionIds db evaluationId)) with
       | some offending =>
         (db, .error (.badRequest ("Question " ++ offending.questionId ++
           " does not belong to this evaluation")))
       | none =>
         ({ db with
            responses := db.responses ++ data.responses.map (fun r =>
              { questionId := r.questionId, userId := ctx.userId,
                answer := r.answer }),
            participants := db.participants.map (fun p =>
              if p.evaluationId = evaluationId ∧ p.userId = ctx.userId then
                { p with
                  completedAt := some now,
                  status := ParticipationStatus.ACCEPTED }
              else p) },
          .ok ())) := by
    unfold submitFeedback
    rw [hrole]
    simp only [ne_eq, not_true_eq_false, reduceIte]
    rw [hpart]
    simp only [hnotdone, Option.isSome_none, Bool.false_eq_true, reduceIte]
    rw [heval]
  constructor
  · intro hex
    have hsome : (data.responses.find? (fun r => decide
        (r.questionId ∉ evaluationQuestionIds db evaluationId))).isSome := by
      rw [List.find?_isSome]
      obtain ⟨r, hr, hnot⟩ := hex
      exact ⟨r, hr, by simpa using hnot⟩
    obtain ⟨off, hoff⟩ := Option.isSome_iff_exists.mp hsome
    rw [hbody, hoff]
    refine ⟨rfl, off, List.mem_of_find?_eq_some hoff, ?_, rfl⟩
    simpa using List.find?_some hoff
  · intro hall
    have hnone : data.responses.find? (fun r => decide
        (r.questionId ∉ evaluationQuestionIds db evaluationId)) = none := by
      rw [List.find?_eq_none]
      intro x hx
      simpa using hall x hx
    rw [hbody, hnone]
    refine ⟨rfl, ?_⟩
    exact find?_participants_update db.participants evaluationId ctx.userId
      now participation hpart

/-- Witness for submitFeedback_validates_and_commits_atomically: a
concrete TESTER who joined the fixture evaluation submits one answer to
its only question and one answer to a foreign question id; the foreign
submission is rejected with the store untouched and the valid one
commits. -/
theorem submitFeedback_witness :
    ctxTesterT.role = Role.TESTER ∧
    ((submitFeedback ctxTesterT "e1"
        { responses := [{ questionId := "qX", answer := .bool true }] }
        dbJoinedWithQuestion 100).1 = dbJoinedWithQuestion ∧
     (submitFeedback ctxTesterT "e1"
        { responses := [{ questionId := "q1", answer := .bool true }] }
        dbJoinedWithQuestion 100).2 = .ok ()) := by
  constructor
  · rfl
  constructor
  · exact ((submitFeedback_validates_and_commits_atomically ctxTesterT "e1"
      { responses := [{ questionId := "qX", answer := .bool true }] }
      dbJoinedWithQuestion 100 (newParticipant "e1" "u1" 50)
      {
        id := "e1",
        projectId := "p1",
        accountId := "tenantT",
        createdById := "owner1",
        status := EvaluationStatus.ACTIVE }
      rfl (by decide) rfl (by decide)).1
      ⟨{ questionId := "qX", answer := .bool true }, by decide, by decide⟩).1
  · have h := ((submitFeedback_validates_and_commits_atomically ctxTesterT "e1"
      { responses := [{ questionId := "q1", answer := .bool true }] }
      dbJoinedWithQuestion 100 (newParticipant "e1" "u1" 50)
      {
        id := "e1",
        projectId := "p1",
        accountId := "tenantT",
        createdById := "owner1",
        status := EvaluationStatus.ACTIVE }
      rfl (by decide) rfl (by decide)).2 (by decide)).1
    rw [h]

/-- Marking the invitation found by a token lookup EXPIRED keeps it the
first match of the same token lookup (the update changes only its status;
rows before it keep their non-matching tokens). -/
lemma find?_token_after_markExpired (l : List Invitation) (t : String)
    (inv : Invitation)
    (h : l.find? (fun i => decide (i.token = t)) = some inv) :
    (l.map (fun i =>
      if i.id = inv.id then { i with status := InvitationStatus.EXPIRED }
      else i)).find? (fun i => decide (i.token = t)) =
    some { inv with status := InvitationStatus.EXPIRED } := by
  induction l with
  | nil => simp at h
  | cons a tl ih =>
    by_cases hp : a.token = t
    · rw [List.find?_cons_of_pos _ (by simpa using hp)] at h
      obtain rfl : a = inv := by simpa using h
      rw [List.map_cons, if_pos rfl]
      exact List.find?_cons_of_pos _ (by simpa using hp)
    · rw [List.find?_cons_of_neg _ (by simpa using hp)] at h
      rw [List.map_cons]
      by_cases hid : a.id = inv.id
      · rw [if_pos hid, List.find?_cons_of_neg _ (by simpa using hp)]
        exact ih h
      · rw [if_neg hid, List.find?_cons_of_neg _ (by simpa using hp)]
        exact ih h

/-- C5: reading a Pending invitation past its expiry through
validateToken or acceptInvitation updates the row to EXPIRED and fails
with the "Invitation has expired" BadRequest; in the resulting store
every later acceptInvitation with the same (structurally valid) token
fails with the "Invitation has already been expired" error, at any clock
value and whatever password, Supabase outcome or fresh user id is
supplied. -/
theorem invitation_expiry_read_transitions_and_blocks_accept
    (db : DB) (t pw : String) (inv : Invitation) (now : Nat)
    (supaResult : Except ServiceError String) (newUserId : String)
    (hfind : db.invitations.find? (fun i => decide (i.token = t)) = some inv)
    (hpend : inv.status = InvitationStatus.PENDING)
    (hexp : inv.expiresAt < now) :
    validateToken t db now =
      (markInvitationExpired db inv.id,
       .error (.badRequest "Invitation has expired")) ∧
    acceptInvitation { token := t, password := pw } db now supaResult
        newUserId =
      (markInvitationExpired db inv.id,
       .error (.badRequest "Invitation has expired")) ∧
    ∀ (now2 : Nat) (pw2 newUserId2 : String)
      (supaResult2 : Except ServiceError String),
      (acceptInvitation { token := t, password := pw2 }
          (markInvitationExpired db inv.id) now2 supaResult2 newUserId2).2 =
        .error (.badRequest "Invitation has already been expired") := by
  refine ⟨?_, ?_, ?_⟩
  · unfold validateToken
    rw [hfind]
    simp only [hpend, ne_eq, not_true_eq_false, reduceIte, if_pos hexp]
  · unfold acceptInvitation
    rw [hfind]
    simp only [hpend, ne_eq, not_true_eq_false, reduceIte, if_pos hexp]
  · intro now2 pw2 newUserId2 supaResult2
    unfold acceptInvitation
    have hmark : (markInvitationExpired db inv.id).invitations.find?
        (fun i => decide (i.token = t)) =
        some { inv with status := InvitationStatus.EXPIRED } := by
      unfold markInvitationExpired
      exact find?_token_after_markExpired db.invitations t inv hfind
    rw [hmark]
    simp only [ne_eq, reduceCtorEq, not_false_eq_true, reduceIte]
    rfl

/-- Fixture: a Pending invitation of tenant T whose expiry (at 1000) lies
before the read clock (2000). -/
def dbExpiredInvite : DB :=
  { DB.empty with
    invitations := [{
      id := "i1",
      email := "new@x.example",
      token := "tok1",
      role := Role.MEMBER,
      accountId := "tenantT",
      invitedById := "owner1",
      status := InvitationStatus.PENDING,
      expiresAt := 1000,
      acceptedAt := none }] }

/-- Witness for invitation_expiry_read_transitions_and_blocks_accept on
the concrete expired-invitation fixture. -/
theorem invitation_expiry_witness :
    (validateToken "tok1" dbExpiredInvite 2000).2 =
      .error (.badRequest "Invitation has expired") ∧
    (acceptInvitation { token := "tok1", password := "pw" }
        ((validateToken "tok1" dbExpiredInvite 2000).1) 0 (.ok "sb9")
        "u9").2 =
      .error (.badRequest "Invitation has already been expired") := by
  have h := invitation_expiry_read_transitions_and_blocks_accept
    dbExpiredInvite "tok1" "pw"
    {
      id := "i1",
      email := "new@x.example",
      token := "tok1",
      role := Role.MEMBER,
      accountId := "tenantT",
      invitedById := "owner1",
      status := InvitationStatus.PENDING,
      expiresAt := 1000,
      acceptedAt := none }
    2000 (.ok "sb9") "u9" (by decide) rfl (by decide)
  refine ⟨by rw [h.1], ?_⟩
  rw [h.1]
  exact h.2.2 0 "pw" "u9" (.ok "sb9")

/-- C6: sendInvite under a FOUNDER context: Conflict when a user with
the email exists in the tenant; Conflict when a Pending invitation for
(email, tenant) exists whose expiry is still ahead of the clock; when the
expiry of such a Pending invitation has passed, it is first updated to
EXPIRED and a fresh invitation is persisted anyway; with no Pending
invitation at all, the fresh invitation is persisted directly. The
persisted invitation carries the freshly generated token and an expiry
exactly 60 minutes (3600000 ms) in the future. -/
theorem sendInvite_conflicts_and_expiry_rollover
    (ctx : TenantContext) (data : SendInviteDto) (db : DB) (now : Nat)
    (newToken newInvitationId : String)
    (hrole : ctx.role = Role.FOUNDER) :
    (∀ u, db.users.find? (fun u =>
        decide (u.email = data.email ∧ u.accountId = ctx.tenantId)) =
          some u →
      sendInvite ctx data db now newToken newInvitationId =
        (db, .error (.conflict
          "User with this email already exists in your organization"))) ∧
    (db.users.find? (fun u =>
        decide (u.email = data.email ∧ u.accountId = ctx.tenantId)) = none →
      (∀ inv, db.invitations.find? (fun i =>
          decide (i.email = data.email ∧ i.accountId = ctx.tenantId ∧
            i.status = InvitationStatus.PENDING)) = some inv →
        (now < inv.expiresAt →
          sendInvite ctx data db now newToken newInvitationId =
            (db, .error (.conflict
              "An active invitation already exists for this email. Please wait for it to expire or revoke it."))) ∧
        (inv.expiresAt < now →
          sendInvite ctx data db now newToken newInvitationId =
            ({ markInvitationExpired db inv.id with
               invitations := (markInvitationExpired db inv.id).invitations ++
                 [{
                   id := newInvitationId,
                   email := data.email,
                   token := newToken,
                   role := if data.role = some Role.TESTER then Role.TESTER
                           else Role.MEMBER,
                   accountId := ctx.tenantId,
                   invitedById := ctx.userId,
                   status := InvitationStatus.PENDING,
                   expiresAt := now + 3600000,
                   acceptedAt := none }] },
             .ok {
               id := newInvitationId,
               email := data.email,
               token := newToken,
               role := if data.role = some Role.TESTER then Role.TESTER
                       else Role.MEMBER,
               accountId := ctx.tenantId,
               invitedById := ctx.userId,
               status := InvitationStatus.PENDING,
               expiresAt := now + 3600000,
               acceptedAt := none }))) ∧
      (db.invitations.find? (fun i =>
          decide (i.email = data.email ∧ i.accountId = ctx.tenantId ∧
            i.status = InvitationStatus.PENDING)) = none →
        sendInvite ctx data db now newToken newInvitationId =
          ({ db with
             invitations := db.invitations ++
               [{
                 id := newInvitationId,
                 email := data.email,
                 token := newToken,
                 role := if data.role = some Role.TESTER then Role.TESTER
                         else Role.MEMBER,
                 accountId := ctx.tenantId,
                 invitedById := ctx.userId,
                 status := InvitationStatus.PENDING,
                 expiresAt := now + 3600000,
                 acceptedAt := none }] },
           .ok {
             id := newInvitationId,
             email := data.email,
             token := newToken,
             role := if data.role = some Role.TESTER then Role.TESTER
                     else Role.MEMBER,
             accountId := ctx.tenantId,
             invitedById := ctx.userId,
             status := InvitationStatus.PENDING,
             expiresAt := now + 3600000,
             acceptedAt := none }))) := by
  unfold sendInvite
  rw [hrole]
  simp only [ne_eq, not_true_eq_false, reduceIte]
  refine ⟨?_, ?_⟩
  · intro u hu
    rw [hu]
  · intro husers
    rw [husers]
    refine ⟨?_, ?_⟩
    · intro inv hinv
      refine ⟨?_, ?_⟩
      · intro hfuture
        rw [hinv]
        simp only [if_pos hfuture]
      · intro hpast
        rw [hinv]
        simp only [if_neg (by omega : ¬ now < inv.expiresAt)]
        rfl
    · intro hnoinv
      rw [hnoinv]
      rfl

/-- Fixture: tenant T already holds a Pending invitation for the invited
email whose expiry (1000) is in the past at the send clock (2000). -/
def dbStaleInvite : DB := dbExpiredInvite

/-- A FOUNDER principal of tenant T. -/
def ctxFounderT : TenantContext :=
  { userId := "owner1", supabaseId := "s0", email := "owner@t.example",
    role := Role.FOUNDER, tenantId := "tenantT" }

/-- Witness for sendInvite_conflicts_and_expiry_rollover: sending to the
email with the stale Pending invitation at clock 2000 succeeds, marks the
old invitation EXPIRED, and persists a new Pending invitation with the
fresh token and expiry 2000 + 3600000. -/
theorem sendInvite_witness :
    ctxFounderT.role = Role.FOUNDER ∧
    sendInvite ctxFounderT { email := "new@x.example", role := none }
        dbStaleInvite 2000 "tok2" "i2" =
      ({ dbStaleInvite with
         invitations := [{
           id := "i1",
           email := "new@x.example",
           token := "tok1",
           role := Role.MEMBER,
           accountId := "tenantT",
           invitedById := "owner1",
           status := InvitationStatus.EXPIRED,
           expiresAt := 1000,
           acceptedAt := none },
          {
           id := "i2",
           email := "new@x.example",
           token := "tok2",
           role := Role.MEMBER,
           accountId := "tenantT",
           invitedById := "owner1",
           status := InvitationStatus.PENDING,
           expiresAt := 3602000,
           acceptedAt := none }] },
       .ok {
         id := "i2",
         email := "new@x.example",
         token := "tok2",
         role := Role.MEMBER,
         accountId := "tenantT",
         invitedById := "owner1",
         status := InvitationStatus.PENDING,
         expiresAt := 3602000,
         acceptedAt := none }) := by
  refine ⟨rfl, ?_⟩
  have h := ((sendInvite_conflicts_and_expiry_rollover ctxFounderT
    { email := "new@x.example", role := none } dbStaleInvite 2000 "tok2" "i2"
    rfl).2 (by decide)).1
    {
      id := "i1",
      email := "new@x.example",
      token := "tok1",
      role := Role.MEMBER,
      accountId := "tenantT",
      invitedById := "owner1",
      status := InvitationStatus.PENDING,
      expiresAt := 1000,
      acceptedAt := none }
    (by decide)
  rw [h.2 (by decide)]
  decide

/-- C7, counterexample to the claimed error kind: ProjectService.findOne
on an id absent from the store throws the plain
Error("Project with ID ... not found or access denied")
(src/unnamed/part_004 line 140), which is not a NotFound error. -/
theorem projectFindOne_plain_error_not_notFound :
    projectFindOne ctxFounderT "p1" DB.empty =
      .error (.generic "Project with ID p1 not found or access denied") ∧
    ServiceError.isNotFound
      (.generic "Project with ID p1 not found or access denied") = false := by
  exact ⟨by decide, rfl⟩

/-- C7 as amended: BaseService.findOne (for any record type, permissions
and model name, once the findOne permission check passes) fails with
NotFound exactly when no record with the given id exists in the caller
tenant, and otherwise returns a record with that id from that tenant;
ProjectService.findOne overrides this with the role-scoped where clause
(which also excludes soft-deleted projects and, for MEMBER, projects
without a membership row) and fails with a plain generic Error — not
NotFound — when nothing matches. -/
theorem findOne_tenant_scoped_behaviour {α : Type}
    (idOf accountIdOf : α → String) (permissions : PermissionConfig)
    (modelName : String) (records : List α) (ctx : TenantContext)
    (id : String) (pctx : TenantContext) (pid : String) (pdb : DB)
    (hperm : checkPermission permissions.findOne ctx "findOne" modelName =
      .ok ()) :
    ((¬ ∃ r ∈ records, idOf r = id ∧ accountIdOf r = ctx.tenantId) →
      baseFindOne idOf accountIdOf permissions modelName records ctx id =
        .error (.notFound (modelName ++ " with ID " ++ id ++ " not found"))) ∧
    ((∃ r ∈ records, idOf r = id ∧ accountIdOf r = ctx.tenantId) →
      ∃ r, baseFindOne idOf accountIdOf permissions modelName records ctx id =
        .ok r ∧ r ∈ records ∧ idOf r = id ∧ accountIdOf r = ctx.tenantId) ∧
    ((¬ ∃ p ∈ pdb.projects, p.id = pid ∧
        matchesRoleScopedWhere pctx pdb p = true) →
      projectFindOne pctx pid pdb =
        .error (.generic ("Project with ID " ++ pid ++
          " not found or access denied")) ∧
      ∀ e, projectFindOne pctx pid pdb = .error e →
        ServiceError.isNotFound e = false) := by
  refine ⟨?_, ?_, ?_⟩
  · intro hno
    have hnone : records.find? (fun r =>
        decide (idOf r = id ∧ accountIdOf r = ctx.tenantId)) = none := by
      rw [List.find?_eq_none]
      intro x hx
      simp only [decide_eq_true_eq]
      exact fun hx2 => hno ⟨x, hx, hx2⟩
    unfold baseFindOne
    rw [hperm, hnone]
  · intro hex
    have hsome : (records.find? (fun r =>
        decide (idOf r = id ∧ accountIdOf r = ctx.tenantId))).isSome := by
      rw [List.find?_isSome]
      obtain ⟨r, hr, hr2⟩ := hex
      exact ⟨r, hr, by simpa using hr2⟩
    obtain ⟨r, hr⟩ := Option.isSome_iff_exists.mp hsome
    refine ⟨r, ?_, List.mem_of_find?_eq_some hr, ?_⟩
    · unfold baseFindOne
      rw [hperm, hr]
    · simpa using List.find?_some hr
  · intro hno
    have hpperm : checkPermission projectPermissions.findOne pctx "findOne"
        "project" = .ok () := by
      obtain ⟨u, s, e, r, t⟩ := pctx
      cases r <;> rfl
    have hnone : pdb.projects.find? (fun p =>
        decide (p.id = pid) && matchesRoleScopedWhere pctx pdb p) = none := by
      rw [List.find?_eq_none]
      intro x hx
      simp only [Bool.and_eq_true, decide_eq_true_eq, not_and]
      exact fun hid hm => hno ⟨x, hx, hid, hm⟩
    have hres : projectFindOne pctx pid pdb =
        .error (.generic ("Project with ID " ++ pid ++
          " not found or access denied")) := by
      unfold projectFindOne
      rw [hpperm, hnone]
    refine ⟨hres, ?_⟩
    intro e he
    rw [hres] at he
    obtain rfl : ServiceError.generic ("Project with ID " ++ pid ++
        " not found or access denied") = e := by simpa using he
    rfl

/-- A project of tenant T, not soft-deleted. -/
def projT : Project :=
  { id := "p1", accountId := "tenantT", ownerId := "owner1",
    createdAt := 10, deletedAt := none }

/-- Witness for findOne_tenant_scoped_behaviour: on a one-project store,
BaseService.findOne returns the record for its own tenant and fails with
NotFound for an id that only exists in another tenant context, while
ProjectService.findOne on the empty store fails with the plain error. -/
theorem findOne_behaviour_witness :
    (∃ r, baseFindOne Project.id Project.accountId DEFAULT_PERMISSIONS
        "project" [projT] ctxFounderT "p1" = .ok r ∧ r ∈ [projT] ∧
        r.id = "p1" ∧ r.accountId = ctxFounderT.tenantId) ∧
    baseFindOne Project.id Project.accountId DEFAULT_PERMISSIONS
        "project" [projT] ctxFounderT "p9" =
      .error (.notFound "project with ID p9 not found") := by
  constructor
  · exact (findOne_tenant_scoped_behaviour Project.id Project.accountId
      DEFAULT_PERMISSIONS "project" [projT] ctxFounderT "p1"
      ctxFounderT "p1" DB.empty (by decide)).2.1
      ⟨projT, by decide, by decide, by decide⟩
  · exact (findOne_tenant_scoped_behaviour Project.id Project.accountId
      DEFAULT_PERMISSIONS "project" [projT] ctxFounderT "p9"
      ctxFounderT "p9" DB.empty (by decide)).1 (by decide)

/-- C8: in the project listing, every principal receives exactly the
non-soft-deleted projects of their tenant, further restricted for the
MEMBER role to projects with a membership row for their user id (FOUNDER
and TESTER see them all). Stated for a full page (skip 0, take the whole
table) so that pagination does not truncate the result. -/
theorem projectFindAll_role_scoped_visibility (ctx : TenantContext)
    (db : DB) (p : Project) :
    ∃ res, projectFindAll ctx { skip := 0, take := db.projects.length } db =
      .ok res ∧
      (p ∈ res.data ↔ p ∈ db.projects ∧ p.accountId = ctx.tenantId ∧
        p.deletedAt = none ∧
        (ctx.role = Role.MEMBER →
          ∃ m ∈ db.members, m.projectId = p.id ∧ m.userId = ctx.userId)) := by
  have hperm : checkPermission projectPermissions.findAll ctx "findAll"
      "project" = .ok () := by
    obtain ⟨u, s, e, r, t⟩ := ctx
    cases r <;> rfl
  unfold projectFindAll
  rw [hperm]
  refine ⟨_, rfl, ?_⟩
  simp only [List.drop_zero]
  have hlen : (sortByCreatedAtDesc
      (db.projects.filter (matchesRoleScopedWhere ctx db))).length ≤
      db.projects.length := by
    rw [sortByCreatedAtDesc, List.length_insertionSort]
    exact List.length_filter_le _ _
  rw [List.take_of_length_le hlen, sortByCreatedAtDesc,
    List.mem_insertionSort, List.mem_filter]
  by_cases hm : ctx.role = Role.MEMBER <;>
    simp [matchesRoleScopedWhere, hm, List.any_eq_true, and_assoc]

/-- SignupDto fixture: a TESTER signup with no account name. -/
def testerSignupDto : SignupDto :=
  { email := "new@x.example"
    password := "secret"
    role := Role.TESTER
    accountName := none }

/-- C9, counterexample to "the original failure — not any error from the
cleanup itself — propagates": when Supabase signUp fails and the
compensating account delete also fails, the signup catch block awaits the
delete, so the delete error replaces the original one
(jwt.util.ts lines 118-124). -/
theorem signup_cleanup_error_masks_original :
    (signup testerSignupDto DB.empty "acc1"
      (.error (.generic "supabase down")) (.ok "u1")
      (some (.generic "account delete failed"))).2 =
      .error (.generic "account delete failed") ∧
    ((.error (.generic "account delete failed") :
        Except ServiceError User) ≠
      .error (.generic "supabase down")) := by
  exact ⟨by decide, by decide⟩

/-- C9 as amended: after the Account row is created, a failure of the
external identity creation (or of the local user row creation) triggers a
compensating delete of the Account; when that delete succeeds the store
is restored to its pre-signup state and the original failure propagates,
but when the delete itself fails, the delete error propagates instead of
the original and the Account row remains. Stated under a fresh account
id, a passing founder-name guard and no pre-existing user with the
email. -/
theorem signup_compensation_behaviour (dto : SignupDto) (db : DB)
    (newAccountId : String) (userCreateResult : Except ServiceError String)
    (hguard : ¬ (dto.role = Role.FOUNDER ∧ dto.accountName = none))
    (husers : db.users.find? (fun u => decide (u.email = dto.email)) = none)
    (hfresh : ∀ a ∈ db.accounts, a.id ≠ newAccountId) :
    (∀ e : ServiceError,
      signup dto db newAccountId (.error e) userCreateResult none =
        (db, .error e)) ∧
    (∀ e e2 : ServiceError,
      signup dto db newAccountId (.error e) userCreateResult (some e2) =
        ({ db with accounts := db.accounts ++
            [{ id := newAccountId, name := signupAccountName dto }] },
         .error e2)) ∧
    (∀ (sid : String) (e : ServiceError),
      signup dto db newAccountId (.ok sid) (.error e) none =
        (db, .error e)) ∧
    (∀ (sid : String) (e e2 : ServiceError),
      signup dto db newAccountId (.ok sid) (.error e) (some e2) =
        ({ db with accounts := db.accounts ++
            [{ id := newAccountId, name := signupAccountName dto }] },
         .error e2)) := by
  have hfilter : ∀ nm : String,
      (db.accounts ++ [({ id := newAccountId, name := nm } : Account)]).filter
        (fun a => decide (a.id ≠ newAccountId)) = db.accounts := by
    intro nm
    rw [List.filter_append]
    have h1 : db.accounts.filter (fun a => decide (a.id ≠ newAccountId)) =
        db.accounts :=
      List.filter_eq_self.mpr (fun a ha => by simpa using hfresh a ha)
    rw [h1]
    simp
  refine ⟨?_, ?_, ?_, ?_⟩
  · intro e
    unfold signup
    rw [if_neg hguard, husers]
    simp only [hfilter]
  · intro e e2
    unfold signup
    rw [if_neg hguard, husers]
  · intro sid e
    unfold signup
    rw [if_neg hguard, husers]
    simp only [hfilter]
  · intro sid e e2
    unfold signup
    rw [if_neg hguard, husers]

/-- Witness for signup_compensation_behaviour: on the empty store, a
TESTER signup whose Supabase call fails is fully compensated (the store
is unchanged and the Supabase error propagates) when the delete succeeds,
and surfaces the delete error when the delete fails. -/
theorem signup_compensation_witness :
    signup testerSignupDto DB.empty "acc1"
      (.error (.generic "supabase down")) (.ok "u1") none =
      (DB.empty, .error (.generic "supabase down")) ∧
    signup testerSignupDto DB.empty "acc1"
      (.error (.generic "supabase down")) (.ok "u1")
      (some (.generic "account delete failed")) =
      ({ DB.empty with accounts :=
          [{ id := "acc1", name := "new@x.example\x27s Account" }] },
       .error (.generic "account delete failed")) := by
  have h := signup_compensation_behaviour testerSignupDto
    DB.empty "acc1" (.ok "u1")
    (by simp [testerSignupDto]) (by decide) (by simp [DB.empty])
  exact ⟨h.1 (.generic "supabase down"),
    h.2.1 (.generic "supabase down") (.generic "account delete failed")⟩

/-- C10: addMember under a FOUNDER context, given any project of the
caller tenant, inserts the (projectId, userId) membership row for
whatever userId is supplied; no condition on the users table appears
anywhere — the row is created even when the user id belongs to another
tenant or to no user at all. -/
theorem addMember_inserts_without_user_check (ctx : TenantContext)
    (projectId userId : String) (db : DB) (proj : Project)
    (hrole : ctx.role = Role.FOUNDER)
    (hproj : db.projects.find? (fun p =>
        decide (p.id = projectId ∧ p.accountId = ctx.tenantId)) =
      some proj) :
    addMember ctx projectId userId db =
      ({ db with members := db.members ++
          [{ projectId := projectId, userId := userId }] },
       .ok ()) := by
  unfold addMember
  rw [hrole]
  simp only [ne_eq, not_true_eq_false, reduceIte]
  rw [hproj]

/-- Store with one project of tenant T and one user belonging to the
different tenant B. -/
def dbProjWithForeignUser : DB :=
  { DB.empty with
    projects := [projT],
    users := [{
      id := "uB",
      supabaseId := "sB",
      email := "b@b.example",
      role := Role.TESTER,
      accountId := "tenantB" }] }

/-- Witness for addMember_inserts_without_user_check: the FOUNDER of
tenant T adds user uB — who belongs to tenant B — to project p1, and the
membership row is created anyway. -/
theorem addMember_foreign_user_witness :
    addMember ctxFounderT "p1" "uB" dbProjWithForeignUser =
      ({ dbProjWithForeignUser with
         members := [{ projectId := "p1", userId := "uB" }] },
       .ok ()) := by
  exact addMember_inserts_without_user_check ctxFounderT "p1" "uB"
    dbProjWithForeignUser projT rfl (by decide)

end Testerone
